import Mathlib

/-!
# Verification of the HelperGPT client-side application controller

A shallow embedding of `src/frontend/app.js` (class `HelperGPT`): the
client-side state (session, document list, chat history, view/overlay
visibility) and the event handlers that mutate it.  DOM rendering is
abstracted away; what each handler *emits* (notifications shown to the
user, HTTP requests issued, `confirm` prompts, `window.open` navigations)
is returned explicitly alongside the successor state.  Backend responses
are passed in as parameters (`Option …`, where `none` models a rejected
fetch / non-2xx response thrown by `makeAPICall`).
-/

namespace HelperGPT

/-- A document record as held in `this.uploadedDocuments`. -/
structure Document where
  id : Nat
  filename : String
  deriving DecidableEq

/-- Notification types accepted by `showNotification(message, type)`. -/
inductive NotifType where
  | info | success | error | warning
  deriving DecidableEq

/-- A notification produced by `showNotification`. -/
structure Notification where
  message : String
  ntype : NotifType
  deriving DecidableEq

def infoN (m : String) : Notification := ⟨m, .info⟩

def succN (m : String) : Notification := ⟨m, .success⟩

def errN (m : String) : Notification := ⟨m, .error⟩

/-- An HTTP request issued to the backend. `upload` records the multipart
form fields (`team`, `project`, and the repeated `files` parts, by file
name) exactly as `uploadFiles` builds its `FormData`. -/
inductive Request where
  | login (username password : String)
  | documents
  | upload (team project : String) (files : List String)
  | deleteDoc (id : Nat)
  | ask (question : String)
  deriving DecidableEq

/-- Client-side state of the `HelperGPT` controller: the mutable instance
fields plus the visibility of the views/overlays the handlers toggle. -/
structure AppState where
  isLoggedIn : Bool
  currentUser : Option String
  authToken : Option String
  chatHistory : List String
  uploadedDocuments : List Document
  loginModalVisible : Bool
  mainViewVisible : Bool
  adminPanelVisible : Bool
  processingVisible : Bool
  uploadProgressVisible : Bool
  deriving DecidableEq

/-- State after the constructor and `forceMainViewVisible`: logged out,
modals/overlays hidden, main view shown. -/
def initialState : AppState where
  isLoggedIn := false
  currentUser := none
  authToken := none
  chatHistory := []
  uploadedDocuments := []
  loginModalVisible := false
  mainViewVisible := true
  adminPanelVisible := false
  processingVisible := false
  uploadProgressVisible := false

/-- The observable outcome of running one handler: the successor state,
the notifications shown, the HTTP requests issued, the `confirm` prompts
raised, and the URLs opened via `window.open`. -/
structure EffResult where
  state : AppState
  notifications : List Notification
  requests : List Request
  prompts : List String
  opened : List String
  deriving DecidableEq

/-! ## File validation (`isValidFile`, `handleFileSelect`) -/

/-- JavaScript `String.prototype.split` with a one-character separator,
on the character list of the string: `splitOnDot l` is `l.split('.')`.
Always returns at least one (possibly empty) component. -/
def splitOnDot : List Char → List (List Char)
  | [] => [[]]
  | c :: rest =>
    if c = '.' then [] :: splitOnDot rest
    else
      match splitOnDot rest with
      | [] => [[c]]
      | h :: t => (c :: h) :: t

/-- Last element of a list of components, `[]` if empty — the semantics of
JavaScript `Array.prototype.pop` applied to the result of a split. -/
def lastD : List (List Char) → List Char
  | [] => []
  | [a] => a
  | _ :: b :: rest => lastD (b :: rest)

/-- Character-wise `toLowerCase`. -/
def lowerStr (l : List Char) : List Char := l.map Char.toLower

/-- The allow-list `validTypes` of `isValidFile`. -/
def validTypes : List (List Char) := [".txt".data, ".pdf".data, ".doc".data, ".docx".data]

/-- `isValidFile(file)`: `'.' + file.name.split('.').pop().toLowerCase()`
is a member of the allow-list. -/
def isValidFile (name : String) : Bool :=
  ('.' :: lowerStr (lastD (splitOnDot name.data))) ∈ validTypes

/-- The per-file rejection notice of `handleFileSelect`. -/
def rejectionNotice (name : String) : Notification :=
  errN ("File " ++ name ++ " is not supported. Please upload .txt, .pdf, .doc, or .docx files.")

/-- `handleFileSelect(files)`: each valid file is appended to the displayed
file list, each invalid one produces one rejection notification.  Returns
the displayed list and the notifications, in order. -/
def handleFileSelect (files : List String) : List String × List Notification :=
  files.foldl
    (fun acc f =>
      if isValidFile f then (acc.1 ++ [f], acc.2)
      else (acc.1, acc.2 ++ [rejectionNotice f]))
    ([], [])

example : isValidFile "REPORT.PDF" = true := by decide
example : isValidFile "a.exe" = false := by decide
example : isValidFile "a.b.DocX" = true := by decide
example : isValidFile "" = false := by decide

/-! ## JavaScript string trimming -/

/-- The WhiteSpace and LineTerminator code points stripped by JavaScript
`String.prototype.trim`. -/
def isJsWhitespace (c : Char) : Bool :=
  c = ' ' ∨ c = '\t' ∨ c = '\n' ∨ c = '\r' ∨ c = '\x0b' ∨ c = '\x0c' ∨
    c = '\u00A0' ∨ c = '\u2028' ∨ c = '\u2029' ∨ c = '\uFEFF'

/-- JavaScript `String.prototype.trim`: strip leading and trailing
whitespace. -/
def jsTrim (s : String) : String :=
  ⟨((s.data.dropWhile isJsWhitespace).reverse.dropWhile isJsWhitespace).reverse⟩

example : jsTrim "  hi  " = "hi" := by decide
example : jsTrim "   " = "" := by decide

/-! ## Chat history (`addToChatHistory`) -/

/-- `addToChatHistory(question)`: `unshift` the question, then truncate to
the first 10 entries when the length exceeds 10. -/
def addToChatHistory (question : String) (history : List String) : List String :=
  let h := question :: history
  if 10 < h.length then h.take 10 else h

/-- Running a sequence of submitted questions through `addToChatHistory`,
oldest submission first, starting from the empty history of a fresh page. -/
def chatRun (questions : List String) : List String :=
  questions.foldl (fun h q => addToChatHistory q h) []

/-! ## Document operations -/

/-- `loadDocuments()`: requires login (silently returns otherwise), issues
`GET /documents`;  `resp = none` models a thrown `makeAPICall`
(notification shown), `some none` a 2xx body without a `documents` field
(state untouched), `some (some docs)` a body whose `documents` replaces
the in-memory list wholesale. -/
def loadDocuments (s : AppState) (resp : Option (Option (List Document))) : EffResult :=
  if s.isLoggedIn = false then ⟨s, [], [], [], []⟩
  else
    match resp with
    | none => ⟨s, [errN "Failed to load documents"], [.documents], [], []⟩
    | some none => ⟨s, [], [.documents], [], []⟩
    | some (some docs) => ⟨{ s with uploadedDocuments := docs }, [], [.documents], [], []⟩

/-- `uploadFiles(team, project, files)`: shows the upload-progress modal,
builds the multipart body (`team`, `project`, and one `files` part per
file of the *original input selection*), issues the POST.  On success it
hides the modal, notifies, re-fetches the documents.  On failure it hides
the modal and rethrows (the caller adds the notification). -/
def uploadFiles (s : AppState) (team project : String) (files : List String)
    (resp : Option Unit) (docsResp : Option (Option (List Document))) : EffResult :=
  let req : Request := .upload team project files
  match resp with
  | none => ⟨{ s with uploadProgressVisible := false }, [], [req], [], []⟩
  | some _ =>
    let r := loadDocuments { s with uploadProgressVisible := false } docsResp
    ⟨r.state, succN "Files uploaded successfully!" :: r.notifications, req :: r.requests,
      r.prompts, r.opened⟩

/-- `handleFileUpload(e)`: guard on login, team/project selection and a
non-empty `fileInput.files`, then `uploadFiles`; a thrown upload surfaces
one generic error notification. -/
def handleFileUpload (s : AppState) (team project : String) (files : List String)
    (resp : Option Unit) (docsResp : Option (Option (List Document))) : EffResult :=
  if s.isLoggedIn = false then ⟨s, [errN "Please login first"], [], [], []⟩
  else if team = "" ∨ project = "" then
    ⟨s, [errN "Please select both team and project"], [], [], []⟩
  else if files.isEmpty then ⟨s, [errN "Please select files to upload"], [], [], []⟩
  else
    let u := uploadFiles s team project files resp docsResp
    match resp with
    | some _ => u
    | none =>
      ⟨u.state, u.notifications ++ [errN "Upload failed. Please try again."], u.requests,
        u.prompts, u.opened⟩

/-- The message passed to `confirm` by `deleteDocument`. -/
def deleteConfirmMsg : String := "Are you sure you want to delete this document?"

/-- `deleteDocument(id)`: guards on login and a truthy id, then prompts
for confirmation (`confirmed` is the user's answer); cancellation returns
with no request.  On a confirmed delete, issues `DELETE /documents/id`
and on success re-fetches the list. -/
def deleteDocument (s : AppState) (id : Nat) (confirmed : Bool)
    (resp : Option Unit) (docsResp : Option (Option (List Document))) : EffResult :=
  if s.isLoggedIn = false then ⟨s, [errN "Please login first"], [], [], []⟩
  else if id = 0 then ⟨s, [errN "Invalid document ID"], [], [], []⟩
  else if confirmed = false then ⟨s, [], [], [deleteConfirmMsg], []⟩
  else
    match resp with
    | none => ⟨s, [errN "Delete failed"], [.deleteDoc id], [deleteConfirmMsg], []⟩
    | some _ =>
      let r := loadDocuments s docsResp
      ⟨r.state, succN "Document deleted successfully" :: r.notifications,
        .deleteDoc id :: r.requests, deleteConfirmMsg :: r.prompts, r.opened⟩

/-- `downloadDocument(id)`: guards on login and a truthy id, then opens a
new browser tab at the download endpoint (no JSON request). -/
def downloadDocument (s : AppState) (id : Nat) : EffResult :=
  if s.isLoggedIn = false then ⟨s, [errN "Please login first"], [], [], []⟩
  else if id = 0 then ⟨s, [errN "Invalid document ID"], [], [], []⟩
  else
    ⟨s, [infoN "Download started..."], [], [],
      ["/documents/" ++ toString id ++ "/download"]⟩

/-! ## Authentication (`handleLogin`, `handleLogout`) -/

/-- The JSON body of a 2xx `/auth/login` response, as the fields the
client reads: `access_token` and `user` may each be absent. -/
structure LoginResponse where
  access_token : Option String
  user : Option String
  deriving DecidableEq

/-- JavaScript truthiness of `response?.access_token`: present and not the
empty string. -/
def tokenTruthy (r : LoginResponse) : Bool :=
  match r.access_token with
  | some t => t ≠ ""
  | none => false

/-- `handleLogin(e)`: trims the credentials and rejects empty ones with no
network call; otherwise issues `POST /auth/login`.  `resp = none` models a
thrown `makeAPICall` (caught: error notification, no state change).  A 2xx
response with a truthy `access_token` stores the session fields, hides the
login modal, shows the admin panel and loads the documents; a 2xx response
without one falls through silently (no `else` branch in the source). -/
def handleLogin (s : AppState) (username password : String)
    (resp : Option LoginResponse) (docsResp : Option (Option (List Document))) : EffResult :=
  let u := jsTrim username
  let p := jsTrim password
  if u = "" ∨ p = "" then
    ⟨s, [errN "Please enter both username and password"], [], [], []⟩
  else
    match resp with
    | none =>
      ⟨s, [infoN "Logging in...", errN "Login failed. Please check your credentials."],
        [.login u p], [], []⟩
    | some r =>
      if tokenTruthy r then
        let s1 : AppState :=
          { s with
            authToken := r.access_token
            currentUser := r.user
            isLoggedIn := true
            loginModalVisible := false
            mainViewVisible := false
            adminPanelVisible := true }
        let r2 := loadDocuments s1 docsResp
        ⟨r2.state,
          infoN "Logging in..." :: succN "Login successful! Welcome to admin panel." ::
            r2.notifications,
          .login u p :: r2.requests, r2.prompts, r2.opened⟩
      else ⟨s, [infoN "Logging in..."], [.login u p], [], []⟩

/-- `handleLogout()`: clears the session fields and the document list,
shows the main view, notifies. -/
def handleLogout (s : AppState) : EffResult :=
  ⟨{ s with
      isLoggedIn := false
      currentUser := none
      authToken := none
      uploadedDocuments := []
      mainViewVisible := true
      adminPanelVisible := false },
    [succN "Logged out successfully"], [], [], []⟩

/-! ## Question flow (`handleQuestion`) -/

/-- The fields of a 2xx `/ask` response the client renders. -/
structure QueryResult where
  answer : String
  sources : List String
  deriving DecidableEq

/-- `handleQuestion()`: trims the input, rejects empty or shorter-than-3
inputs with a notification and no network call; otherwise shows the
processing overlay, pushes the question into the chat history, issues
`POST /ask`, and hides the overlay in a `finally` on both the success and
the failure path. -/
def handleQuestion (s : AppState) (input : String) (resp : Option QueryResult) : EffResult :=
  let question := jsTrim input
  if question = "" then ⟨s, [errN "Please enter a question"], [], [], []⟩
  else if question.length < 3 then
    ⟨s, [errN "Question must be at least 3 characters long"], [], [], []⟩
  else
    let s1 : AppState :=
      { s with processingVisible := true, chatHistory := addToChatHistory question s.chatHistory }
    match resp with
    | some _ => ⟨{ s1 with processingVisible := false }, [], [.ask question], [], []⟩
    | none =>
      ⟨{ s1 with processingVisible := false },
        [errN "Failed to process question. Please try again."], [.ask question], [], []⟩

/-! ## Sequences of login/logout operations -/

/-- One user-level authentication action, carrying the backend's behaviour
for the network calls it triggers. -/
inductive AuthEvent where
  | login (username password : String) (resp : Option LoginResponse)
      (docsResp : Option (Option (List Document)))
  | logout

/-- The state transition of one authentication action. -/
def authStep (s : AppState) : AuthEvent → AppState
  | .login u p resp docsResp => (handleLogin s u p resp docsResp).state
  | .logout => (handleLogout s).state

/-- Run a sequence of login/logout actions from a state. -/
def runAuth (s : AppState) (evs : List AuthEvent) : AppState := evs.foldl authStep s

/-- The session invariant of the spec: `loggedIn = true` implies both
`user` and `authToken` are non-null. -/
def SessionInv (s : AppState) : Prop :=
  s.isLoggedIn = true → s.currentUser.isSome = true ∧ s.authToken.isSome = true

instance : DecidablePred SessionInv := fun s => by
  unfold SessionInv; infer_instance

/-- A login response respecting the backend contract of the spec (§6): a
success response carrying a token also carries a user object. -/
def respOk : Option LoginResponse → Prop
  | some r => tokenTruthy r = true → r.user.isSome = true
  | none => True

/-- An authentication action whose backend responses respect the §6
contract. -/
def eventOk : AuthEvent → Prop
  | .login _ _ resp _ => respOk resp
  | .logout => True

example : (handleQuestion initialState "  hi " none).requests = [] := by decide

/-- A logged-in state as left behind by a successful login. -/
def loggedInState : AppState :=
  { initialState with
      isLoggedIn := true
      currentUser := some "admin"
      authToken := some "token"
      mainViewVisible := false
      adminPanelVisible := true }

instance (r : Option LoginResponse) : Decidable (respOk r) := by
  rcases r with _ | r <;> unfold respOk <;> infer_instance

instance (ev : AuthEvent) : Decidable (eventOk ev) := by
  rcases ev with ⟨u, p, resp, d⟩ | _ <;> unfold eventOk <;> infer_instance

/-- A login whose 2xx response carries a token but no user object: the
client stores the token, flips `isLoggedIn`, and leaves `currentUser`
null. -/
def tokenOnlyLogin : AuthEvent := .login "admin" "pw" (some ⟨some "tok", none⟩) (some none)

/-- A login whose response carries both a token and a user object. -/
def contractLogin : AuthEvent :=
  .login "admin" "pw" (some ⟨some "tok", some "admin"⟩) (some (some [⟨1, "hr.pdf"⟩]))

/-- Spec-side reading of "the file name's final extension equals `ext`
under case-insensitive comparison": the name has a last dot, and the
suffix after it lowercases to `ext`. -/
def finalExtensionIs (name ext : String) : Prop :=
  ∃ pre tail, name.data = pre ++ '.' :: tail ∧ ('.' : Char) ∉ tail ∧ lowerStr tail = ext.data

/-! ## Helper lemmas -/

theorem addToChatHistory_length_le (q : String) (h : List String) (hle : h.length ≤ 10) :
    (addToChatHistory q h).length ≤ 10 := by
  unfold addToChatHistory
  dsimp only
  split
  · simp [List.length_take]
  · simp only [List.length_cons, not_lt] at *
    omega

theorem foldl_chat_length_le (qs : List String) :
    ∀ h : List String, h.length ≤ 10 →
      (qs.foldl (fun h q => addToChatHistory q h) h).length ≤ 10 := by
  induction qs with
  | nil => intro h hle; simpa using hle
  | cons q qs ih =>
    intro h hle
    exact ih _ (addToChatHistory_length_le q h hle)

theorem addToChatHistory_full (q : String) (h : List String) (hlen : h.length = 10) :
    addToChatHistory q h = q :: h.dropLast := by
  unfold addToChatHistory
  rw [if_pos (by simp [hlen])]
  rw [List.take_succ_cons, List.dropLast_eq_take, hlen]

theorem loadDocuments_prompts (s : AppState) (r : Option (Option (List Document))) :
    (loadDocuments s r).prompts = [] := by
  unfold loadDocuments
  rcases r with _ | (_ | docs) <;> split <;> rfl

theorem loadDocuments_session (s : AppState) (r : Option (Option (List Document))) :
    (loadDocuments s r).state.isLoggedIn = s.isLoggedIn ∧
      (loadDocuments s r).state.currentUser = s.currentUser ∧
      (loadDocuments s r).state.authToken = s.authToken := by
  unfold loadDocuments
  rcases r with _ | (_ | docs) <;> split <;> exact ⟨rfl, rfl, rfl⟩

/-! ## Claim theorems -/

/-- C3: For every sequence of submitted questions, the chat history
never exceeds 10 entries; inserting into a full 10-entry history evicts
the oldest (last) entry and places the new question first. -/
theorem chat_history_bounded_and_evicts (qs : List String) (q : String) (h : List String) :
    (chatRun qs).length ≤ 10 ∧
      (h.length = 10 → addToChatHistory q h = q :: h.dropLast) :=
  ⟨foldl_chat_length_le qs [] (by simp), fun hlen => addToChatHistory_full q h hlen⟩

/-- Witness for C3: eleven submissions stay within the bound, and the
eleventh insertion into a full history evicts `"q1"` and fronts `"q11"`. -/
theorem chat_history_bounded_and_evicts_witness :
    (chatRun ["q1", "q2", "q3", "q4", "q5", "q6", "q7", "q8", "q9", "q10", "q11"]).length ≤ 10 ∧
      (["q10", "q9", "q8", "q7", "q6", "q5", "q4", "q3", "q2", "q1"] : List String).length = 10 ∧
      addToChatHistory "q11" ["q10", "q9", "q8", "q7", "q6", "q5", "q4", "q3", "q2", "q1"] =
        "q11" :: (["q10", "q9", "q8", "q7", "q6", "q5", "q4", "q3", "q2", "q1"] :
          List String).dropLast :=
  ⟨(chat_history_bounded_and_evicts
      ["q1", "q2", "q3", "q4", "q5", "q6", "q7", "q8", "q9", "q10", "q11"] "x" []).1,
    by decide,
    (chat_history_bounded_and_evicts [] "q11"
      ["q10", "q9", "q8", "q7", "q6", "q5", "q4", "q3", "q2", "q1"]).2 (by decide)⟩

/-- C6: A question input that is empty or shorter than 3 characters
after trimming issues no request and produces exactly one immediate error
notification. -/
theorem short_question_rejected (s : AppState) (input : String) (resp : Option QueryResult)
    (h : jsTrim input = "" ∨ (jsTrim input).length < 3) :
    (handleQuestion s input resp).requests = [] ∧
      (∃ m, (handleQuestion s input resp).notifications = [errN m]) ∧
      (handleQuestion s input resp).state = s := by
  unfold handleQuestion
  by_cases h0 : jsTrim input = ""
  · rw [if_pos h0]
    exact ⟨rfl, ⟨_, rfl⟩, rfl⟩
  · rcases h with h | h
    · exact absurd h h0
    · rw [if_neg h0, if_pos h]
      exact ⟨rfl, ⟨_, rfl⟩, rfl⟩

/-- Witness for C6: the two-character input `" hi "` is rejected without a
request. -/
theorem short_question_rejected_witness :
    (jsTrim " hi " = "" ∨ (jsTrim " hi ").length < 3) ∧
      (handleQuestion initialState " hi " none).requests = [] ∧
      (∃ m, (handleQuestion initialState " hi " none).notifications = [errN m]) ∧
      (handleQuestion initialState " hi " none).state = initialState :=
  ⟨Or.inr (by decide), short_question_rejected initialState " hi " none (Or.inr (by decide))⟩

/-- C7: Logout always leaves `authToken` and `user` null, empties the
in-memory document list, and returns the view to the non-admin (main)
state. -/
theorem logout_clears_session (s : AppState) :
    (handleLogout s).state.authToken = none ∧
      (handleLogout s).state.currentUser = none ∧
      (handleLogout s).state.uploadedDocuments = [] ∧
      (handleLogout s).state.mainViewVisible = true ∧
      (handleLogout s).state.adminPanelVisible = false :=
  ⟨rfl, rfl, rfl, rfl, rfl⟩

/-- C8: For every execution of the question flow that passes local
validation (so that the processing overlay is shown), the overlay is
hidden when the flow exits, whether the backend query succeeds or fails:
the `finally` block releases the processing UI lock on every exit path. -/
theorem processing_hidden_on_exit (s : AppState) (input : String) (resp : Option QueryResult)
    (h1 : jsTrim input ≠ "") (h2 : 3 ≤ (jsTrim input).length) :
    (handleQuestion s input resp).state.processingVisible = false := by
  unfold handleQuestion
  rw [if_neg h1, if_neg (by omega)]
  cases resp <;> rfl

/-- Witness for C8: a valid question leaves the overlay hidden on both the
success and the failure exit. -/
theorem processing_hidden_on_exit_witness :
    jsTrim "What is our PTO policy?" ≠ "" ∧
      3 ≤ (jsTrim "What is our PTO policy?").length ∧
      (handleQuestion initialState "What is our PTO policy?"
        (some ⟨"answer", ["hr.pdf"]⟩)).state.processingVisible = false ∧
      (handleQuestion initialState "What is our PTO policy?" none).state.processingVisible =
        false :=
  ⟨by decide, by decide,
    processing_hidden_on_exit initialState "What is our PTO policy?" (some ⟨"answer", ["hr.pdf"]⟩)
      (by decide) (by decide),
    processing_hidden_on_exit initialState "What is our PTO policy?" none
      (by decide) (by decide)⟩



/-- C9: A delete invoked by a logged-in user on a valid document id
always raises exactly the confirmation prompt; if the user cancels, no
request is issued and the state (hence the document list) is unchanged. -/
theorem delete_always_prompts_cancel_frame (s : AppState) (id : Nat) (confirmed : Bool)
    (resp : Option Unit) (docsResp : Option (Option (List Document)))
    (hLogin : s.isLoggedIn = true) (hid : id ≠ 0) :
    (deleteDocument s id confirmed resp docsResp).prompts = [deleteConfirmMsg] ∧
      (confirmed = false →
        (deleteDocument s id confirmed resp docsResp).requests = [] ∧
          (deleteDocument s id confirmed resp docsResp).state = s) := by
  unfold deleteDocument
  rw [if_neg (by simp [hLogin]), if_neg hid]
  cases confirmed
  · rw [if_pos rfl]
    exact ⟨rfl, fun _ => ⟨rfl, rfl⟩⟩
  · rw [if_neg (by simp)]
    cases resp with
    | none => exact ⟨rfl, by simp⟩
    | some u =>
      refine ⟨?_, by simp⟩
      simp [loadDocuments_prompts]

/-- Witness for C9: cancelling the confirmation for document 1 leaves the
logged-in state untouched and issues nothing. -/
theorem delete_always_prompts_cancel_frame_witness :
    loggedInState.isLoggedIn = true ∧ (1 : Nat) ≠ 0 ∧
      (deleteDocument loggedInState 1 false none none).prompts = [deleteConfirmMsg] ∧
      (deleteDocument loggedInState 1 false none none).requests = [] ∧
      (deleteDocument loggedInState 1 false none none).state = loggedInState :=
  ⟨rfl, by decide,
    (delete_always_prompts_cancel_frame loggedInState 1 false none none rfl (by decide)).1,
    ((delete_always_prompts_cancel_frame loggedInState 1 false none none rfl (by decide)).2
      rfl).1,
    ((delete_always_prompts_cancel_frame loggedInState 1 false none none rfl (by decide)).2
      rfl).2⟩

/-! ## C2: the session all-or-nothing invariant -/





theorem tokenTruthy_isSome (r : LoginResponse) (h : tokenTruthy r = true) :
    r.access_token.isSome = true := by
  unfold tokenTruthy at h
  cases hr : r.access_token with
  | none => rw [hr] at h; cases h
  | some t => rfl

theorem handleLogin_sessionInv (s : AppState) (u p : String) (resp : Option LoginResponse)
    (d : Option (Option (List Document))) (hs : SessionInv s) (hok : respOk resp) :
    SessionInv (handleLogin s u p resp d).state := by
  unfold handleLogin
  dsimp only
  by_cases hc : jsTrim u = "" ∨ jsTrim p = ""
  · rw [if_pos hc]; exact hs
  · rw [if_neg hc]
    cases resp with
    | none => exact hs
    | some r =>
      dsimp only
      by_cases ht : tokenTruthy r = true
      · rw [if_pos ht]
        intro _
        obtain ⟨h1, h2, h3⟩ := loadDocuments_session
          { s with
              authToken := r.access_token
              currentUser := r.user
              isLoggedIn := true
              loginModalVisible := false
              mainViewVisible := false
              adminPanelVisible := true } d
        rw [h2, h3]
        exact ⟨hok ht, tokenTruthy_isSome r ht⟩
      · rw [if_neg ht]
        exact hs

theorem runAuth_inv (evs : List AuthEvent) :
    ∀ s : AppState, SessionInv s → (∀ ev ∈ evs, eventOk ev) → SessionInv (runAuth s evs) := by
  induction evs with
  | nil => intro s hs _; exact hs
  | cons ev evs ih =>
    intro s hs hok
    have hev : eventOk ev := hok ev (by simp)
    have hrest : ∀ e ∈ evs, eventOk e := fun e he => hok e (by simp [he])
    show SessionInv (runAuth (authStep s ev) evs)
    refine ih (authStep s ev) ?_ hrest
    cases ev with
    | login u p resp d => exact handleLogin_sessionInv s u p resp d hs hev
    | logout => intro h; simp [authStep, handleLogout] at h



/-- Counterexample to C2 as stated: after a login whose response has
an `access_token` but no `user` field, the client is logged in with a null
`user` — the all-or-nothing invariant fails over arbitrary backend
responses. -/
theorem session_invariant_counterexample :
    (runAuth initialState [tokenOnlyLogin]).isLoggedIn = true ∧
      (runAuth initialState [tokenOnlyLogin]).currentUser = none := by decide

/-- C2 amended: in every state reachable by login/logout sequences
whose login responses respect the §6 contract (a token-bearing success
response also carries a user object), `loggedIn = true` implies both
`user` and `authToken` are non-null. -/
theorem session_all_or_nothing (evs : List AuthEvent) (hok : ∀ ev ∈ evs, eventOk ev) :
    SessionInv (runAuth initialState evs) :=
  runAuth_inv evs initialState (by decide) hok



/-- Witness for C2 (amended): one contract-respecting login reaches a
logged-in state with both session fields set. -/
theorem session_all_or_nothing_witness :
    (∀ ev ∈ [contractLogin], eventOk ev) ∧
      SessionInv (runAuth initialState [contractLogin]) :=
  ⟨by decide, session_all_or_nothing [contractLogin] (by decide)⟩

/-! ## C4: failed login -/

/-- Counterexample to C4 as stated: a 2xx login response with no
`access_token` falls through the token check with no `else` branch — the
state is unchanged and the modal stays open, but the only notification is
the pre-call "Logging in..." info notice: the user is never notified of
the failure. -/
theorem login_no_token_silent :
    (handleLogin initialState "admin" "wrong" (some ⟨none, none⟩) none).state = initialState ∧
      (handleLogin initialState "admin" "wrong" (some ⟨none, none⟩) none).notifications =
        [infoN "Logging in..."] := by decide

/-- C4 amended: for every login attempt where the backend call fails
or the response carries no token, no session state change persists (the
state, and with it the open login modal, is exactly as before); the
failure notification is shown when the call fails (thrown/non-2xx), but
not when a 2xx response merely lacks a token. -/
theorem login_failure_preserves_state (s : AppState) (u p : String)
    (resp : Option LoginResponse) (d : Option (Option (List Document)))
    (hu : jsTrim u ≠ "") (hp : jsTrim p ≠ "")
    (hfail : resp = none ∨ ∃ r, resp = some r ∧ tokenTruthy r = false) :
    (handleLogin s u p resp d).state = s ∧
      (resp = none →
        errN "Login failed. Please check your credentials." ∈
          (handleLogin s u p resp d).notifications) := by
  unfold handleLogin
  dsimp only
  rw [if_neg (by push_neg; exact ⟨hu, hp⟩)]
  rcases hfail with rfl | ⟨r, rfl, ht⟩
  · exact ⟨rfl, fun _ => by simp⟩
  · dsimp only
    rw [if_neg (by simp [ht])]
    exact ⟨rfl, by simp⟩

/-- Witness for C4 (amended): a thrown `/auth/login` call (e.g. a 401)
leaves the state unchanged and shows the failure notification. -/
theorem login_failure_preserves_state_witness :
    jsTrim "admin" ≠ "" ∧ jsTrim "wrong" ≠ "" ∧
      (handleLogin initialState "admin" "wrong" none none).state = initialState ∧
      errN "Login failed. Please check your credentials." ∈
        (handleLogin initialState "admin" "wrong" none none).notifications :=
  ⟨by decide, by decide,
    (login_failure_preserves_state initialState "admin" "wrong" none none (by decide)
      (by decide) (Or.inl rfl)).1,
    (login_failure_preserves_state initialState "admin" "wrong" none none (by decide)
      (by decide) (Or.inl rfl)).2 rfl⟩

/-! ## C5: document operations while logged out -/

/-- Counterexample to C5 as stated: `loadDocuments` invoked while not
logged in returns silently — no network request, but also no user-facing
notice, unlike upload/delete/download. -/
theorem list_refresh_silent_counterexample :
    (loadDocuments initialState (some (some [⟨1, "hr.pdf"⟩]))).requests = [] ∧
      (loadDocuments initialState (some (some [⟨1, "hr.pdf"⟩]))).notifications = [] := by
  decide

/-- C5 amended: every document operation invoked while not logged in
issues no network request and leaves the state unchanged; upload, delete
and download are rejected with the "Please login first" notice, while
list/refresh returns silently with no notice. -/
theorem logged_out_ops_rejected (s : AppState) (team project : String) (files : List String)
    (uresp dresp2 : Option Unit) (dresp : Option (Option (List Document))) (id id2 : Nat)
    (confirmed : Bool) (hs : s.isLoggedIn = false) :
    (handleFileUpload s team project files uresp dresp).requests = [] ∧
      (handleFileUpload s team project files uresp dresp).notifications =
        [errN "Please login first"] ∧
      (handleFileUpload s team project files uresp dresp).state = s ∧
      (deleteDocument s id confirmed dresp2 dresp).requests = [] ∧
      (deleteDocument s id confirmed dresp2 dresp).notifications = [errN "Please login first"] ∧
      (deleteDocument s id confirmed dresp2 dresp).state = s ∧
      (downloadDocument s id2).requests = [] ∧
      (downloadDocument s id2).opened = [] ∧
      (downloadDocument s id2).notifications = [errN "Please login first"] ∧
      (downloadDocument s id2).state = s ∧
      (loadDocuments s dresp).requests = [] ∧
      (loadDocuments s dresp).notifications = [] ∧
      (loadDocuments s dresp).state = s := by
  unfold handleFileUpload deleteDocument downloadDocument loadDocuments
  rw [hs]
  simp

/-- Witness for C5 (amended): all four operations on the fresh logged-out
state. -/
theorem logged_out_ops_rejected_witness :
    initialState.isLoggedIn = false ∧
      (handleFileUpload initialState "Engineering" "Cloud Team" ["report.pdf"] none
          none).requests = [] ∧
      (handleFileUpload initialState "Engineering" "Cloud Team" ["report.pdf"] none
          none).notifications = [errN "Please login first"] ∧
      (handleFileUpload initialState "Engineering" "Cloud Team" ["report.pdf"] none
          none).state = initialState ∧
      (deleteDocument initialState 1 true none none).requests = [] ∧
      (deleteDocument initialState 1 true none none).notifications =
        [errN "Please login first"] ∧
      (deleteDocument initialState 1 true none none).state = initialState ∧
      (downloadDocument initialState 2).requests = [] ∧
      (downloadDocument initialState 2).opened = [] ∧
      (downloadDocument initialState 2).notifications = [errN "Please login first"] ∧
      (downloadDocument initialState 2).state = initialState ∧
      (loadDocuments initialState none).requests = [] ∧
      (loadDocuments initialState none).notifications = [] ∧
      (loadDocuments initialState none).state = initialState :=
  ⟨rfl,
    logged_out_ops_rejected initialState "Engineering" "Cloud Team" ["report.pdf"] none none
      none 1 2 true rfl⟩

/-! ## C1: the end-to-end upload scenario -/

/-- C1: the claim's first half holds: selecting `malware.exe` and
`report.pdf` produces exactly one rejection notice (for the `.exe`) and
only `report.pdf` appears in the displayed pending list.  Its second half
fails in the code: `handleFileUpload` reads `fileInput.files` — the
*original* selection — so the multipart `files` field of the issued upload
request contains `malware.exe` as well, not only `report.pdf`; the
client-side validation only filters the displayed list. -/
theorem exe_file_uploaded_anyway :
    (handleFileSelect ["malware.exe", "report.pdf"]).2 = [rejectionNotice "malware.exe"] ∧
      (handleFileSelect ["malware.exe", "report.pdf"]).1 = ["report.pdf"] ∧
      (handleFileUpload loggedInState "Engineering" "Cloud Team" ["malware.exe", "report.pdf"]
          (some ()) (some (some []))).requests =
        [.upload "Engineering" "Cloud Team" ["malware.exe", "report.pdf"], .documents] ∧
      ("malware.exe" ∈ (["malware.exe", "report.pdf"] : List String) ∧
        (["malware.exe", "report.pdf"] : List String) ≠ ["report.pdf"]) := by
  decide

/-! ## C10: case-insensitive extension check -/

theorem splitOnDot_ne_nil (l : List Char) : splitOnDot l ≠ [] := by
  cases l with
  | nil => simp [splitOnDot]
  | cons c rest =>
    unfold splitOnDot
    split
    · simp
    · split <;> simp

theorem splitOnDot_no_dot (l : List Char) (h : ('.' : Char) ∉ l) : splitOnDot l = [l] := by
  induction l with
  | nil => rfl
  | cons c rest ih =>
    have hc : c ≠ '.' := fun hc => h (by simp [hc])
    have hrest : ('.' : Char) ∉ rest := fun hr => h (by simp [hr])
    simp only [splitOnDot, if_neg hc, ih hrest]

theorem splitOnDot_length_two (l : List Char) (h : ('.' : Char) ∈ l) :
    2 ≤ (splitOnDot l).length := by
  induction l with
  | nil => cases h
  | cons c rest ih =>
    by_cases hc : c = '.'
    · simp only [splitOnDot, if_pos hc]
      have h1 : 0 < (splitOnDot rest).length :=
        List.length_pos.mpr (splitOnDot_ne_nil rest)
      simp only [List.length_cons]
      omega
    · have hmem : ('.' : Char) ∈ rest := by
        rcases List.mem_cons.mp h with h1 | h1
        · exact absurd h1.symm hc
        · exact h1
      have h2 := ih hmem
      cases hrest : splitOnDot rest with
      | nil => exact absurd hrest (splitOnDot_ne_nil rest)
      | cons a t =>
        rw [hrest] at h2
        simp only [splitOnDot, if_neg hc, hrest, List.length_cons] at h2 ⊢
        omega

theorem lastD_cons_cons (a b : List Char) (t : List (List Char)) :
    lastD (a :: b :: t) = lastD (b :: t) := rfl

theorem lastD_splitOnDot (l₁ l₂ : List Char) (h : ('.' : Char) ∉ l₂) :
    lastD (splitOnDot (l₁ ++ '.' :: l₂)) = l₂ := by
  induction l₁ with
  | nil =>
    show lastD (splitOnDot ('.' :: l₂)) = l₂
    simp only [splitOnDot, if_pos rfl, splitOnDot_no_dot l₂ h]
    rfl
  | cons c l₁ ih =>
    show lastD (splitOnDot (c :: (l₁ ++ '.' :: l₂))) = l₂
    by_cases hc : c = '.'
    · cases hrest : splitOnDot (l₁ ++ '.' :: l₂) with
      | nil => exact absurd hrest (splitOnDot_ne_nil _)
      | cons a t =>
        rw [hrest] at ih
        simp only [splitOnDot, if_pos hc, hrest, lastD_cons_cons]
        exact ih
    · cases hrest : splitOnDot (l₁ ++ '.' :: l₂) with
      | nil => exact absurd hrest (splitOnDot_ne_nil _)
      | cons a t =>
        rw [hrest] at ih
        simp only [splitOnDot, if_neg hc, hrest]
        cases t with
        | nil =>
          have h2 := splitOnDot_length_two (l₁ ++ '.' :: l₂) (by simp)
          rw [hrest] at h2
          simp at h2
        | cons b t' =>
          rw [lastD_cons_cons]
          rw [lastD_cons_cons] at ih
          exact ih



/-- C10: Every file whose name's final extension equals `.txt`,
`.pdf`, `.doc` or `.docx` under case-insensitive comparison is accepted by
`isValidFile`: the allow-list comparison is case-insensitive. -/
theorem allowed_extension_accepted (name ext : String)
    (hext : ext ∈ (["txt", "pdf", "doc", "docx"] : List String))
    (hfin : finalExtensionIs name ext) : isValidFile name = true := by
  obtain ⟨pre, tail, hname, hdot, hlow⟩ := hfin
  unfold isValidFile
  rw [hname, lastD_splitOnDot pre tail hdot, hlow]
  fin_cases hext <;> decide

/-- Witness for C10: `"REPORT.PDF"` is accepted. -/
theorem allowed_extension_accepted_witness :
    ("pdf" ∈ (["txt", "pdf", "doc", "docx"] : List String)) ∧
      finalExtensionIs "REPORT.PDF" "pdf" ∧ isValidFile "REPORT.PDF" = true :=
  ⟨by decide, ⟨"REPORT".data, "PDF".data, by decide, by decide, by decide⟩,
    allowed_extension_accepted "REPORT.PDF" "pdf" (by decide)
      ⟨"REPORT".data, "PDF".data, by decide, by decide, by decide⟩⟩

end HelperGPT
